import Mathlib

/-!
Verification of the async work system of `Source/Task/AsyncLib.cpp`.

We give a shallow sequential embedding of the `AsyncBlock` / `AsyncState`
machinery: `HRESULT` values are naturals below `2^32` (the standard Windows
numeric values), the per-call `AsyncState` heap object together with the
caller-owned `AsyncBlockInternal` is modelled by a single record `Sys`,
and each public API of `AsyncLib.cpp` becomes a pure function on `Sys`.

Pointer-valued fields are modelled as follows:
* `AsyncBlockInternal::state` (a pointer that `ExtractState` nulls out) is
  the flag `Sys.hasState`; the pointee itself lives in `Sys.st` for as long
  as its reference count is positive.
* `AsyncState::provider` is `Option Provider` (`none` = null pointer); a
  call through a null provider has no defined result, so every operation
  that invokes the provider is `Option`-valued, `none` marking that crash.
* Reference counting (`AddRef`/`Release`) is tracked in `Sys.refs`, counting
  the persistent owners of the state: the block's pointer, each queued
  `Work`/`Completion` callback record, and an armed timer.  Guard-local
  `AsyncStateRef` temporaries are created and destroyed inside a single
  embedded function and always balance, so they are elided.
* Provider invocations are logged in order in `Sys.ops`, and every call of
  `SignalCompletion` increments the ghost counter `Sys.signals`.
-/

/-- `HRESULT` values, as their standard unsigned 32-bit numeric value. -/
abbrev HResult := Nat

def S_OK : HResult := 0

def E_PENDING : HResult := 0x8000000A

def E_UNEXPECTED : HResult := 0x8000FFFF

def E_ABORT : HResult := 0x80004004

def E_INVALIDARG : HResult := 0x80070057

def E_OUTOFMEMORY : HResult := 0x8007000E

def E_NOT_SUPPORTED : HResult := 0x80070032

def E_NOT_SUFFICIENT_BUFFER : HResult := 0x8007007A

/-- `SUCCEEDED(hr)`: the signed 32-bit value is non-negative. -/
def SUCCEEDED (hr : HResult) : Bool := hr < 0x80000000

/-- `FAILED(hr)`. -/
def FAILED (hr : HResult) : Bool := !(SUCCEEDED hr)

/-- The four provider operations of the `AsyncProvider` contract. -/
inductive AsyncOp where
  | DoWork
  | GetResult
  | Cancel
  | Cleanup
deriving DecidableEq, Repr

/-- `AsyncProviderData`: the data handed to the provider.  The queue and the
buffer are pointers; we record only whether they are null. -/
structure ProviderData where
  queuePresent : Bool
  context : Nat
  bufferSize : Nat
  bufferPresent : Bool
deriving Repr

/-- An `AsyncProvider` is `(op, const data*) -> HRESULT`. -/
abbrev Provider := AsyncOp → ProviderData → HResult

/-- The fields of the heap-allocated `AsyncState` (minus the reference count,
which lives in `Sys.refs`).  `hasTimer` models `timer != nullptr` and
`timerArmed` models a threadpool timer armed by `SetThreadpoolTimer` that has
not fired or been disarmed. -/
structure AsyncState where
  workScheduled : Bool
  timerScheduled : Bool
  canceled : Bool
  provider : Option Provider
  providerData : ProviderData
  token : Nat
  function : Option String
  hasTimer : Bool
  timerArmed : Bool

/-- The whole sequential system: the `AsyncBlockInternal` (`status`,
`hasState`), the single `AsyncState` object (`st`, `refs`), the two queue
channels as counters of pending callback records, and ghost observation
fields (`waitSignaled`, `signals`, `userCallbackRuns`, `ops`).
`blockCallback` is `asyncBlock->callback != nullptr`. -/
structure Sys where
  status : HResult
  hasState : Bool
  st : AsyncState
  refs : Nat
  workQueued : Nat
  completionQueued : Nat
  waitSignaled : Bool
  signals : Nat
  userCallbackRuns : Nat
  ops : List AsyncOp
  blockCallback : Bool

/-- `AsyncBlockInternalGuard::TrySetTerminalStatus` (AsyncLib.cpp:202):
writes `status` and reports success iff the current status is `E_PENDING`. -/
def trySetTerminalStatus (s : Sys) (status : HResult) : Bool × Sys :=
  if s.status = E_PENDING then
    (true, { s with status := status })
  else
    (false, s)

/-- A sequence of `TrySetTerminalStatus` attempts, in order. -/
def runAttempts (s : Sys) (ws : List HResult) : Sys :=
  ws.foldl (fun s w => (trySetTerminalStatus s w).2) s

theorem trySetTerminalStatus_of_not_pending (s : Sys) (w : HResult)
    (h : s.status ≠ E_PENDING) : trySetTerminalStatus s w = (false, s) := by
  simp [trySetTerminalStatus, h]

theorem runAttempts_of_not_pending (s : Sys) (ws : List HResult)
    (h : s.status ≠ E_PENDING) : runAttempts s ws = s := by
  induction ws with
  | nil => rfl
  | cons w ws ih =>
    simp only [runAttempts, List.foldl_cons]
    rw [trySetTerminalStatus_of_not_pending s w h]
    exact ih

/-- C3: the terminal status is write-once.  From a `Pending` block, the first
`TrySetTerminalStatus` with a non-`Pending` value succeeds and records that
value; after it, any further sequence of attempts leaves the status equal to
that first value, and each individual later attempt fails and changes
nothing. -/
theorem C3_terminal_status_write_once (s : Sys) (h0 : s.status = E_PENDING)
    (w : HResult) (hw : w ≠ E_PENDING) (ws : List HResult) :
    (trySetTerminalStatus s w).1 = true ∧
    (trySetTerminalStatus s w).2.status = w ∧
    (runAttempts (trySetTerminalStatus s w).2 ws).status = w ∧
    ∀ v, trySetTerminalStatus (runAttempts (trySetTerminalStatus s w).2 ws) v
        = (false, runAttempts (trySetTerminalStatus s w).2 ws) := by
  have h1 : trySetTerminalStatus s w = (true, { s with status := w }) := by
    simp [trySetTerminalStatus, h0]
  have hfrozen : runAttempts { s with status := w } ws = { s with status := w } :=
    runAttempts_of_not_pending _ _ hw
  refine ⟨by rw [h1], by rw [h1], ?_, ?_⟩
  · rw [h1, hfrozen]
  · intro v
    rw [h1, hfrozen]
    exact trySetTerminalStatus_of_not_pending _ _ hw

/-- A concrete provider used by witnesses: completes synchronously. -/
def provSample : Provider := fun op _ =>
  match op with
  | .DoWork => E_PENDING
  | .GetResult => S_OK
  | .Cancel => S_OK
  | .Cleanup => S_OK

/-- A concrete system as it stands right after a successful `BeginAsync`:
pending, state attached, one reference (the block's), nothing queued. -/
def sysAfterBegin : Sys :=
  { status := E_PENDING
    hasState := true
    st :=
      { workScheduled := false
        timerScheduled := false
        canceled := false
        provider := some provSample
        providerData :=
          { queuePresent := true, context := 7, bufferSize := 0, bufferPresent := false }
        token := 1
        function := some "TestApi"
        hasTimer := false
        timerArmed := false }
    refs := 1
    workQueued := 0
    completionQueued := 0
    waitSignaled := false
    signals := 0
    userCallbackRuns := 0
    ops := []
    blockCallback := false }

theorem C3_terminal_status_write_once_witness :
    sysAfterBegin.status = E_PENDING ∧ (E_ABORT : HResult) ≠ E_PENDING ∧
    (trySetTerminalStatus sysAfterBegin E_ABORT).1 = true ∧
    (runAttempts (trySetTerminalStatus sysAfterBegin E_ABORT).2 [S_OK, E_INVALIDARG]).status
      = E_ABORT := by
  have h := C3_terminal_status_write_once sysAfterBegin (by decide) E_ABORT (by decide)
    [S_OK, E_INVALIDARG]
  exact ⟨by decide, by decide, h.1, h.2.2.1⟩

/-- `SignalCompletion` (AsyncLib.cpp:366): with a user completion callback, a
`Completion` record carrying a new state reference is submitted to the queue
(a submit failure fail-fasts the process and is not modelled); without one,
the wait primitive is signaled directly.  The ghost counter `signals` records
the invocation. -/
def signalCompletion (s : Sys) : Sys :=
  if s.blockCallback then
    { s with completionQueued := s.completionQueued + 1
             refs := s.refs + 1
             signals := s.signals + 1 }
  else
    { s with waitSignaled := true, signals := s.signals + 1 }

/-- `CleanupState` (AsyncLib.cpp:342): on a non-null moved-in state reference,
invoke the provider's `Cleanup` op, remove every still-queued `Work` record
for this state (each removal releases the reference that record owned), then
release the moved-in reference itself.  `none` models the call through a null
`provider` pointer; on a null state reference nothing happens. -/
def cleanupState (s : Sys) (statePresent : Bool) : Option Sys :=
  if statePresent then
    match s.st.provider with
    | none => none
    | some _ =>
      some { s with ops := s.ops ++ [AsyncOp.Cleanup]
                    refs := s.refs - s.workQueued - 1
                    workQueued := 0 }
  else
    some s

/-- `GetAsyncStatus` (AsyncLib.cpp:518): locked read of status and state; when
asked to wait with a state attached, block on the wait primitive until the
completion path signals it, then re-read the status (the wait itself always
succeeds in this sequential model).  With no state attached, a `Pending`
status is rewritten to `E_INVALIDARG`. -/
def getAsyncStatus (s : Sys) (wait : Bool) : HResult :=
  let result := s.status
  if wait then
    if !s.hasState then
      if result = E_PENDING then E_INVALIDARG else result
    else
      s.status
  else
    result

/-- `GetAsyncResultSize` (AsyncLib.cpp:580): returns the status; the required
size is written through the out-parameter (second component, `none` = left
untouched) only on a succeeded status with a state still attached; a
succeeded status with no state returns `E_INVALIDARG`. -/
def getAsyncResultSize (s : Sys) : HResult × Option Nat :=
  let result := s.status
  if SUCCEEDED result then
    if !s.hasState then (E_INVALIDARG, none)
    else (result, some s.st.providerData.bufferSize)
  else
    (result, none)

/-- `CompleteAsync` (AsyncLib.cpp:769).  `E_PENDING` is ignored; otherwise the
terminal status is attempted, the state is extracted (when the payload size is
zero or the prior status was `E_ABORT`) or merely read, completion is signaled
by the winner, and the extracted state is cleaned up.  `none` models the
null-pointer write `state->providerData.bufferSize = ...` that happens when
the winner finds no state attached. -/
def completeAsync (s : Sys) (result : HResult) (requiredBufferSize : Nat) :
    Option Sys :=
  if result = E_PENDING then some s
  else
    let priorStatus := s.status
    let r := trySetTerminalStatus s result
    let completedNow := r.1
    let s := r.2
    let doCleanup := requiredBufferSize == 0 || priorStatus == E_ABORT
    let statePresent := s.hasState
    let s := if doCleanup then { s with hasState := false } else s
    let afterSignal : Option Sys :=
      if completedNow then
        if statePresent then
          let s := { s with st := { s.st with
            providerData := { s.st.providerData with bufferSize := requiredBufferSize } } }
          some (signalCompletion s)
        else
          none
      else
        some s
    match afterSignal with
    | none => none
    | some s => if doCleanup then cleanupState s statePresent else some s

/-- `GetAsyncResult` (AsyncLib.cpp:824).  Returns the `HRESULT`, the new
system, and the value written through `bufferUsed` (`none` = left untouched).
The state is unconditionally extracted from the block up front; on the early
`return`s for a null or too-small buffer it is neither cleaned up nor
re-attached.  `none` models a call through a null `provider` pointer. -/
def getAsyncResult (s : Sys) (token : Nat) (bufferSize : Nat)
    (bufferPresent : Bool) : Option (HResult × Sys × Option Nat) :=
  let result := s.status
  let statePresent := s.hasState
  let s := { s with hasState := false }
  if SUCCEEDED result then
    if !statePresent then
      some (E_INVALIDARG, s, none)
    else if token ≠ s.st.token then
      (cleanupState s true).map fun s => (E_INVALIDARG, s, none)
    else if s.st.providerData.bufferSize = 0 then
      (cleanupState s true).map fun s => (E_NOT_SUPPORTED, s, none)
    else if !bufferPresent then
      some (E_INVALIDARG, s, none)
    else if bufferSize < s.st.providerData.bufferSize then
      some (E_NOT_SUFFICIENT_BUFFER, s, none)
    else
      match s.st.provider with
      | none => none
      | some p =>
        let used := s.st.providerData.bufferSize
        let pd := { s.st.providerData with
          bufferSize := bufferSize, bufferPresent := bufferPresent }
        let r := p AsyncOp.GetResult pd
        let s := { s with st := { s.st with providerData := pd }
                          ops := s.ops ++ [AsyncOp.GetResult] }
        if r ≠ E_PENDING then
          (cleanupState s true).map fun s => (r, s, some used)
        else
          some (r, s, some used)
  else
    if result ≠ E_PENDING then
      (cleanupState s statePresent).map fun s => (result, s, none)
    else
      some (result, s, none)

/-- `ScheduleAsync` (AsyncLib.cpp:707).  `timerCreateOk` models whether
`CreateThreadpoolTimer` returns non-null, `osError` the failing `HRESULT` it
reports via `GetLastError` when it does not, and `submitHr` the result of
`SubmitAsyncCallback`.  On success the scheduled work or timer record takes
one extra state reference. -/
def scheduleAsync (s : Sys) (delayInMs : Nat) (timerCreateOk : Bool)
    (osError : HResult) (submitHr : HResult) : HResult × Sys :=
  if !s.hasState then (E_INVALIDARG, s)
  else if delayInMs != 0 && !s.st.hasTimer && !timerCreateOk then
    (osError, s)
  else
    let s := if delayInMs != 0 && !s.st.hasTimer then
        { s with st := { s.st with hasTimer := true } }
      else s
    let priorScheduled := s.st.workScheduled
    let s := { s with st := { s.st with workScheduled := true } }
    if priorScheduled then (E_UNEXPECTED, s)
    else if delayInMs == 0 then
      if FAILED submitHr then (submitHr, s)
      else
        let s := { s with workQueued := s.workQueued + 1 }
        (S_OK, { s with refs := s.refs + 1 })
    else
      let s := { s with st := { s.st with timerScheduled := true, timerArmed := true } }
      (S_OK, { s with refs := s.refs + 1 })

/-- `WorkerCallback` (AsyncLib.cpp:442).  Adopts the reference the queued
`Work` record owned and releases it on return.  On a non-canceled state the
provider's `DoWork` runs; a non-`Pending` return is recorded as terminal
(`SUCCEEDED` rewritten to `E_UNEXPECTED`) and completion is signaled when this
worker won the terminal transition. -/
def workerCallback (s : Sys) : Option Sys :=
  let s := { s with st := { s.st with workScheduled := false } }
  if s.st.canceled then some { s with refs := s.refs - 1 }
  else
    match s.st.provider with
    | none => none
    | some p =>
      let result := p AsyncOp.DoWork s.st.providerData
      let s := { s with ops := s.ops ++ [AsyncOp.DoWork] }
      if result ≠ E_PENDING && !s.st.canceled then
        let result := if SUCCEEDED result then E_UNEXPECTED else result
        let r := trySetTerminalStatus s result
        let s := if r.1 then signalCompletion r.2 else r.2
        some { s with refs := s.refs - 1 }
      else
        some { s with refs := s.refs - 1 }

/-- `TimerCallback` (AsyncLib.cpp:480, `_WIN32`).  Adopts the reference the
armed timer held.  On a canceled state the reference is dropped; otherwise a
`Work` record is submitted (transferring the reference) or, if submission
fails, the call is completed with the failing status. -/
def timerCallback (s : Sys) (submitHr : HResult) : Option Sys :=
  let s := { s with st := { s.st with timerScheduled := false, timerArmed := false } }
  if s.st.canceled then some { s with refs := s.refs - 1 }
  else if SUCCEEDED submitHr then
    some { s with workQueued := s.workQueued + 1 }
  else
    match completeAsync s submitHr 0 with
    | none => none
    | some s => some { s with refs := s.refs - 1 }

/-- `CancelAsync` (AsyncLib.cpp:608).  First winner of the `E_ABORT` terminal
transition extracts the state, marks it canceled, tears down the timer
(disarming it and, when `timerScheduled` shows the timer never fired,
releasing the reference it held), invokes the provider's `Cancel`, signals
completion and cleans up.  `none` models the null dereference
`state->canceled = true` when the pending block carries no state. -/
def cancelAsync (s : Sys) : Option Sys :=
  let r := trySetTerminalStatus s E_ABORT
  if !r.1 then some s
  else
    let s := r.2
    let statePresent := s.hasState
    let s := { s with hasState := false }
    if !statePresent then none
    else
      let s := { s with st := { s.st with canceled := true } }
      let s :=
        if s.st.hasTimer then
          let s := { s with st := { s.st with timerArmed := false } }
          if s.st.timerScheduled then { s with refs := s.refs - 1 } else s
        else s
      match s.st.provider with
      | none => none
      | some _ =>
        let s := { s with ops := s.ops ++ [AsyncOp.Cancel] }
        let s := signalCompletion s
        cleanupState s true

/-- The caller-owned fields of an `AsyncBlock`, with its opaque `internal`
storage as raw bytes (`AsyncBlock::internal`). -/
structure AsyncBlockOuter where
  queuePresent : Bool
  callbackPresent : Bool
  waitEventPresent : Bool
  internalBytes : List Nat

/-- Success/failure of each fallible step inside `AllocStateNoCompletion`:
the `new (std::nothrow) AsyncState`, then `DuplicateHandle` (when the caller
supplied a wait event) or `CreateEvent` (when not), then
`CreateSharedAsyncQueue` (when the block carries no queue), with the
`HRESULT` each reports on failure. -/
structure AllocEnv where
  stateAllocOk : Bool
  dupHandleHr : HResult
  createEventHr : HResult
  createQueueHr : HResult

/-- The `AsyncState` as `AllocStateNoCompletion` leaves it on success: every
flag at its field initializer, a null provider, a null token and a null
function name, and the queue bound (or freshly created). -/
def allocatedAsyncState : AsyncState :=
  { workScheduled := false
    timerScheduled := false
    canceled := false
    provider := none
    providerData :=
      { queuePresent := true, context := 0, bufferSize := 0, bufferPresent := false }
    token := 0
    function := none
    hasTimer := false
    timerArmed := false }

/-- `AllocStateNoCompletion` (AsyncLib.cpp:232): allocate the state, set up
the wait event, bind (or create) the queue, and attach the state to the
block's internal. -/
def allocStateNoCompletion (blk : AsyncBlockOuter) (env : AllocEnv) :
    HResult × Option AsyncState :=
  if !env.stateAllocOk then (E_OUTOFMEMORY, none)
  else
    let waitHr := if blk.waitEventPresent then env.dupHandleHr else env.createEventHr
    if FAILED waitHr then (waitHr, none)
    else if !blk.queuePresent && FAILED env.createQueueHr then
      (env.createQueueHr, none)
    else
      (S_OK, some allocatedAsyncState)

/-- The observable outcome of `AllocState`: the returned `HRESULT`, whether
`new AsyncState` ran, the constructed `AsyncBlockInternal`'s fields (`none`
when the zero-check failed and the storage was left untouched), whether the
synthetic completion was submitted, and whether `AllocState` set the caller's
wait event itself. -/
structure AllocOut where
  result : HResult
  stateCreated : Bool
  internalStatus : Option HResult
  internalState : Option AsyncState
  completionSubmitted : Bool
  eventSetDirectly : Bool

/-- `AllocState` (AsyncLib.cpp:287): fail `E_INVALIDARG` unless every byte of
the block's internal storage is zero; construct the internal (status
`E_PENDING`), run `AllocStateNoCompletion`, and on failure record the failing
status in the internal and attempt the synthetic completion — submitting
`CompletionCallbackForAsyncBlock` when the block has a queue and a callback
(`submitHr` models that submit), and setting the wait event directly when the
finally returned `HRESULT` is still a failure. -/
def allocState (blk : AsyncBlockOuter) (env : AllocEnv) (submitHr : HResult) :
    AllocOut :=
  if blk.internalBytes.any (fun b => b != 0) then
    { result := E_INVALIDARG, stateCreated := false, internalStatus := none,
      internalState := none, completionSubmitted := false, eventSetDirectly := false }
  else
    let r := allocStateNoCompletion blk env
    match r.2 with
    | some st =>
      { result := S_OK, stateCreated := true, internalStatus := some E_PENDING,
        internalState := some st, completionSubmitted := false,
        eventSetDirectly := false }
    | none =>
      let hr := r.1
      let submitted := blk.queuePresent && blk.callbackPresent && SUCCEEDED submitHr
      let finalHr := if blk.queuePresent && blk.callbackPresent then submitHr else hr
      { result := finalHr
        stateCreated := env.stateAllocOk
        internalStatus := some hr
        internalState := none
        completionSubmitted := submitted
        eventSetDirectly := FAILED finalHr && blk.waitEventPresent }

/-- `CompletionCallbackForAsyncBlock` (AsyncLib.cpp:409): invoke the user
callback when present, then set the block's wait event when present.
Returns (user callback invoked, wait event signaled). -/
def completionCallbackForAsyncBlock (blk : AsyncBlockOuter) : Bool × Bool :=
  (blk.callbackPresent, blk.waitEventPresent)

/-- The result of `BeginAsync`: the returned `HRESULT`, the `AllocState`
outcome, and the resulting system when the call succeeded.  `crashed` marks
the null-pointer dereference `state->provider = provider` that `BeginAsync`
performs when `AllocState` reports success without a state attached (the
synthetic-completion path whose submit succeeded). -/
structure BeginOut where
  result : HResult
  alloc : AllocOut
  sys : Option Sys
  crashed : Bool

/-- `BeginAsync` (AsyncLib.cpp:679): `AllocState`, then store the provider,
the context, the token and the function name into the state. -/
def beginAsync (blk : AsyncBlockOuter) (env : AllocEnv) (submitHr : HResult)
    (context : Nat) (token : Nat) (function : Option String)
    (provider : Provider) : BeginOut :=
  let a := allocState blk env submitHr
  if FAILED a.result then
    { result := a.result, alloc := a, sys := none, crashed := false }
  else
    match a.internalState with
    | none => { result := a.result, alloc := a, sys := none, crashed := true }
    | some st =>
      let st := { st with
        provider := some provider
        providerData := { st.providerData with context := context }
        token := token
        function := function }
      { result := S_OK
        alloc := a
        sys := some
          { status := E_PENDING
            hasState := true
            st := st
            refs := 1
            workQueued := 0
            completionQueued := 0
            waitSignaled := false
            signals := 0
            userCallbackRuns := 0
            ops := []
            blockCallback := blk.callbackPresent }
        crashed := false }

/-- An `AsyncState` value with every field at its freshly-constructed default,
used to populate `Sys.st` for a block that never acquired a state. -/
def emptyAsyncState : AsyncState :=
  { workScheduled := false
    timerScheduled := false
    canceled := false
    provider := none
    providerData :=
      { queuePresent := false, context := 0, bufferSize := 0, bufferPresent := false }
    token := 0
    function := none
    hasTimer := false
    timerArmed := false }

/-- The system corresponding to a block whose `AsyncBlockInternal` holds
status `hr` and a null state pointer. -/
def sysNoState (hr : HResult) : Sys :=
  { status := hr
    hasState := false
    st := emptyAsyncState
    refs := 0
    workQueued := 0
    completionQueued := 0
    waitSignaled := false
    signals := 0
    userCallbackRuns := 0
    ops := []
    blockCallback := false }

/-- C1 (the code at the failing input): a call is completed with
`Complete(Success, 8)`; the first `GetAsyncResult` with a 4-byte buffer
returns `E_NOT_SUFFICIENT_BUFFER` and, although the provider's `Cleanup`
never runs (empty op log) — so the state is indeed not torn down — the state
has been extracted from the block and never re-attached, leaving one orphaned
reference owned by nobody; the retry with an 8-byte buffer therefore returns
`E_INVALIDARG` instead of the `Success` with the payload that the
specification requires.  The second conjunct shows the same after the
`E_INVALIDARG` of a null buffer. -/
theorem C1_retry_after_insufficient_buffer_fails :
    (((completeAsync sysAfterBegin S_OK 8).bind fun s1 =>
      (getAsyncResult s1 1 4 true).bind fun r2 =>
        (getAsyncResult r2.2.1 1 8 true).map fun r3 =>
          (r2.1, r2.2.1.hasState, r2.2.1.ops, r2.2.1.refs, r2.2.1.workQueued,
           r2.2.1.completionQueued, r3.1))
      = some (E_NOT_SUFFICIENT_BUFFER, false, [], 1, 0, 0, E_INVALIDARG)) ∧
    (((completeAsync sysAfterBegin S_OK 8).bind fun s1 =>
      (getAsyncResult s1 1 8 false).bind fun r2 =>
        (getAsyncResult r2.2.1 1 8 true).map fun r3 =>
          (r2.1, r2.2.1.hasState, r3.1))
      = some (E_INVALIDARG, false, E_INVALIDARG)) ∧
    (E_INVALIDARG : HResult) ≠ S_OK :=
  ⟨rfl, rfl, by decide⟩

/-- C2 (counterexample): the provider's `DoWork` returns `Pending` without
completing; `Complete(Success, 0)` then terminates the call.
`GetAsyncStatus(wait)` returns `Success`, but the subsequent `GetAsyncResult`
returns `E_INVALIDARG`, not the `E_NOT_SUPPORTED` the claim states, because
`CompleteAsync` with a zero payload size already extracted and cleaned up the
state. -/
theorem C2_counterexample :
    (((workerCallback (scheduleAsync sysAfterBegin 0 true S_OK S_OK).2).bind
      (fun s2 => completeAsync s2 S_OK 0)).map
        (fun s3 => (getAsyncStatus s3 true,
                    (getAsyncResult s3 1 8 true).map (fun r => r.1)))
      = some (S_OK, some E_INVALIDARG)) ∧
    (E_INVALIDARG : HResult) ≠ E_NOT_SUPPORTED :=
  ⟨rfl, by decide⟩

/-- C2 (amended): for every pending call with a state attached, terminating
it with `Complete(Success, requiredBufferSize=0)` records `Success`, extracts
and cleans up the state; a subsequent `GetStatus(wait=true)` returns
`Success`, and a subsequent `GetResult` on the same block returns
`E_INVALIDARG` for every token and buffer (the state reaped by the
zero-payload completion is gone, so there is no payload to query). -/
theorem C2_complete_zero_then_getresult (s : Sys) (p : Provider)
    (hp : s.st.provider = some p) (hs : s.hasState = true)
    (hstatus : s.status = E_PENDING) (token bufferSize : Nat)
    (bufferPresent : Bool) :
    ∃ s1, completeAsync s S_OK 0 = some s1 ∧
      s1.status = S_OK ∧ s1.hasState = false ∧
      getAsyncStatus s1 true = S_OK ∧
      (getAsyncResult s1 token bufferSize bufferPresent).map (fun r => r.1)
        = some E_INVALIDARG := by
  cases hb : s.blockCallback <;>
    simp [completeAsync, trySetTerminalStatus, signalCompletion, cleanupState,
      getAsyncStatus, getAsyncResult, SUCCEEDED,
      hstatus, hs, hp, hb, S_OK, E_PENDING, E_ABORT, E_INVALIDARG]

theorem C2_complete_zero_then_getresult_witness :
    sysAfterBegin.st.provider = some provSample ∧
    ∃ s1, completeAsync sysAfterBegin S_OK 0 = some s1 ∧
      s1.status = S_OK ∧ s1.hasState = false ∧
      getAsyncStatus s1 true = S_OK ∧
      (getAsyncResult s1 1 8 true).map (fun r => r.1) = some E_INVALIDARG :=
  ⟨rfl, C2_complete_zero_then_getresult sysAfterBegin provSample rfl rfl rfl 1 8 true⟩

/-- C9: `ScheduleAsync` on a block with no associated state returns
`E_INVALIDARG` and changes nothing, for every delay and environment. -/
theorem C9_schedule_without_state (s : Sys) (h : s.hasState = false)
    (delayInMs : Nat) (timerCreateOk : Bool) (osError submitHr : HResult) :
    scheduleAsync s delayInMs timerCreateOk osError submitHr
      = (E_INVALIDARG, s) := by
  simp [scheduleAsync, h]

theorem C9_schedule_without_state_witness :
    (sysNoState S_OK).hasState = false ∧
    scheduleAsync (sysNoState S_OK) 0 true S_OK S_OK
      = (E_INVALIDARG, sysNoState S_OK) :=
  ⟨rfl, C9_schedule_without_state (sysNoState S_OK) rfl 0 true S_OK S_OK⟩

/-- C10 (counterexample): after `Complete(Success, 0)` on a freshly begun
call, the block's status is `Success`, yet `GetAsyncResultSize` returns
`E_INVALIDARG` — not that status — because the state was already reaped; so
`GetAsyncResultSize` does not always return the block's current status
unchanged. -/
theorem C10_counterexample :
    ((completeAsync sysAfterBegin S_OK 0).map
        (fun s1 => (s1.status, getAsyncResultSize s1))
      = some (S_OK, E_INVALIDARG, none)) ∧
    (E_INVALIDARG : HResult) ≠ S_OK :=
  ⟨rfl, by decide⟩

/-- C10 (amended): `GetAsyncResultSize` returns the block's status unchanged
and leaves the out-parameter untouched when the status is `Pending` or any
failure; when the status is a success code with the state still attached it
returns that status and writes `providerData.bufferSize`; when the status is
a success code but the state was already reaped it returns `E_INVALIDARG`
with the out-parameter untouched.  In particular, after
`Complete(Success, n)` with `n ≠ 0` on a pending call it returns `Success`
and writes `n`. -/
theorem C10_getAsyncResultSize_cases (s : Sys) :
    (FAILED s.status = true → getAsyncResultSize s = (s.status, none)) ∧
    (SUCCEEDED s.status = true → s.hasState = true →
      getAsyncResultSize s = (s.status, some s.st.providerData.bufferSize)) ∧
    (SUCCEEDED s.status = true → s.hasState = false →
      getAsyncResultSize s = (E_INVALIDARG, none)) ∧
    (∀ p n, s.st.provider = some p → s.hasState = true →
      s.status = E_PENDING → n ≠ 0 →
      (completeAsync s S_OK n).map (fun s1 => getAsyncResultSize s1)
        = some (S_OK, some n)) := by
  refine ⟨?_, ?_, ?_, ?_⟩
  · intro hf
    have hf' : SUCCEEDED s.status = false := by
      simpa [FAILED] using hf
    simp [getAsyncResultSize, hf']
  · intro hsucc hs
    simp [getAsyncResultSize, hsucc, hs]
  · intro hsucc hs
    simp [getAsyncResultSize, hsucc, hs]
  · intro p n hp hs hstatus hn
    cases hb : s.blockCallback <;>
      simp [completeAsync, trySetTerminalStatus, signalCompletion, cleanupState,
        getAsyncResultSize, SUCCEEDED, hstatus, hs, hp, hb, hn,
        S_OK, E_PENDING, E_ABORT]

theorem C10_getAsyncResultSize_cases_witness :
    (completeAsync sysAfterBegin S_OK 8).map
        (fun s1 => getAsyncResultSize s1) = some (S_OK, some 8) :=
  (C10_getAsyncResultSize_cases sysAfterBegin).2.2.2 provSample 8 rfl rfl rfl
    (by decide)

/-- C4: on a non-canceled state, a `Work`-channel invocation of the worker
(1) performs no terminal transition and signals nothing when `DoWork` returns
`Pending`; (2) records `E_UNEXPECTED` — not the returned success — as
terminal and signals completion when `DoWork` returns any success code and
this worker wins the terminal transition; (3) records a non-`Pending` failure
verbatim and signals completion when it wins; and (4) when the block is
already terminal the worker changes no status and signals nothing. -/
theorem C4_workerCallback_terminal_mapping (s : Sys) (p : Provider)
    (hp : s.st.provider = some p) (hc : s.st.canceled = false) :
    (p AsyncOp.DoWork s.st.providerData = E_PENDING →
      ∃ s', workerCallback s = some s' ∧ s'.status = s.status ∧
        s'.signals = s.signals) ∧
    (SUCCEEDED (p AsyncOp.DoWork s.st.providerData) = true →
      s.status = E_PENDING →
      ∃ s', workerCallback s = some s' ∧ s'.status = E_UNEXPECTED ∧
        s'.signals = s.signals + 1) ∧
    (FAILED (p AsyncOp.DoWork s.st.providerData) = true →
      p AsyncOp.DoWork s.st.providerData ≠ E_PENDING →
      s.status = E_PENDING →
      ∃ s', workerCallback s = some s' ∧
        s'.status = p AsyncOp.DoWork s.st.providerData ∧
        s'.signals = s.signals + 1) ∧
    (p AsyncOp.DoWork s.st.providerData ≠ E_PENDING →
      s.status ≠ E_PENDING →
      ∃ s', workerCallback s = some s' ∧ s'.status = s.status ∧
        s'.signals = s.signals) := by
  refine ⟨?_, ?_, ?_, ?_⟩
  · intro hd
    simp [workerCallback, hp, hc, hd]
  · intro hsucc hstatus
    have hne : p AsyncOp.DoWork s.st.providerData ≠ E_PENDING := by
      intro h
      rw [h] at hsucc
      simp [SUCCEEDED, E_PENDING] at hsucc
    cases hb : s.blockCallback <;>
      simp [workerCallback, trySetTerminalStatus, signalCompletion,
        hp, hc, hne, hsucc, hstatus, hb]
  · intro hfail hne hstatus
    have hsucc : SUCCEEDED (p AsyncOp.DoWork s.st.providerData) = false := by
      simpa [FAILED] using hfail
    cases hb : s.blockCallback <;>
      simp [workerCallback, trySetTerminalStatus, signalCompletion,
        hp, hc, hne, hsucc, hstatus, hb]
  · intro hne hstatus
    cases hsr : SUCCEEDED (p AsyncOp.DoWork s.st.providerData) <;>
      simp [workerCallback, trySetTerminalStatus, signalCompletion,
        hp, hc, hne, hsr, hstatus]

theorem C4_workerCallback_terminal_mapping_witness :
    sysAfterBegin.st.provider = some provSample ∧
    provSample AsyncOp.DoWork sysAfterBegin.st.providerData = E_PENDING ∧
    ∃ s', workerCallback sysAfterBegin = some s' ∧
      s'.status = sysAfterBegin.status ∧ s'.signals = sysAfterBegin.signals :=
  ⟨rfl, rfl,
    (C4_workerCallback_terminal_mapping sysAfterBegin provSample rfl rfl).1 rfl⟩

/-- C8: on a state whose `workScheduled` flag is already set, `ScheduleAsync`
returns `E_UNEXPECTED` without queuing a second `Work` record, arming the
timer or touching the reference count; on a state whose flag was clear it
flips the flag, queues the `Work` record (zero delay) or arms the timer
(nonzero delay, also setting `timerScheduled`), takes one extra reference and
returns `S_OK`.  (`timerCreateOk = true`: the lazily created threadpool timer
allocates successfully.) -/
theorem C8_schedule_flag_gate (s : Sys) (hs : s.hasState = true)
    (delayInMs : Nat) (osError submitHr : HResult) :
    (s.st.workScheduled = true →
      ∃ s', scheduleAsync s delayInMs true osError submitHr
          = (E_UNEXPECTED, s') ∧
        s'.workQueued = s.workQueued ∧ s'.st.timerArmed = s.st.timerArmed ∧
        s'.st.timerScheduled = s.st.timerScheduled ∧ s'.refs = s.refs) ∧
    (s.st.workScheduled = false → SUCCEEDED submitHr = true →
      ∃ s', scheduleAsync s delayInMs true osError submitHr = (S_OK, s') ∧
        s'.st.workScheduled = true ∧ s'.refs = s.refs + 1 ∧
        (delayInMs = 0 → s'.workQueued = s.workQueued + 1 ∧
          s'.st.timerArmed = s.st.timerArmed) ∧
        (delayInMs ≠ 0 → s'.workQueued = s.workQueued ∧
          s'.st.timerScheduled = true ∧ s'.st.timerArmed = true)) := by
  constructor
  · intro hws
    by_cases hd : delayInMs = 0 <;> cases hht : s.st.hasTimer <;>
      simp [scheduleAsync, hs, hws, hd, hht]
  · intro hws hsub
    have hf : FAILED submitHr = false := by simp [FAILED, hsub]
    by_cases hd : delayInMs = 0 <;> cases hht : s.st.hasTimer <;>
      simp [scheduleAsync, hs, hws, hd, hht, hf]

theorem C8_schedule_flag_gate_witness :
    sysAfterBegin.st.workScheduled = false ∧
    ∃ s', scheduleAsync sysAfterBegin 0 true S_OK S_OK = (S_OK, s') ∧
      s'.st.workScheduled = true ∧ s'.refs = sysAfterBegin.refs + 1 ∧
      (0 = 0 → s'.workQueued = sysAfterBegin.workQueued + 1 ∧
        s'.st.timerArmed = sysAfterBegin.st.timerArmed) ∧
      ((0 : Nat) ≠ 0 → s'.workQueued = sysAfterBegin.workQueued ∧
        s'.st.timerScheduled = true ∧ s'.st.timerArmed = true) :=
  ⟨rfl, (C8_schedule_flag_gate sysAfterBegin rfl 0 S_OK S_OK).2 rfl (by decide)⟩

/-- The system right after `ScheduleAsync(delay>0)` armed the timer on a
freshly begun call: work/timer flags set, timer created and armed, one extra
reference held by the timer. -/
def sysTimerArmed (s : Sys) : Sys :=
  { s with
    st := { s.st with
            hasTimer := true
            workScheduled := true
            timerScheduled := true
            timerArmed := true }
    refs := s.refs + 1 }

/-- C7: scheduling a freshly begun call with a nonzero delay arms the timer
and hands it one extra state reference; cancelling before the timer fires
never invokes the provider's `DoWork` (the op log of the whole run holds only
`Cancel` and `Cleanup`), and `CancelAsync` releases the timer's reference
exactly once (because `timerScheduled` was still set), so the final reference
count — and the entire provider op log — is identical to that of a run in
which `ScheduleAsync` was never called. -/
theorem C7_cancel_before_timer_fire (s : Sys) (p : Provider)
    (hp : s.st.provider = some p) (hs : s.hasState = true)
    (hstatus : s.status = E_PENDING)
    (hws : s.st.workScheduled = false) (hts : s.st.timerScheduled = false)
    (hnt : s.st.hasTimer = false) (hops : s.ops = [])
    (delayInMs : Nat) (hd : delayInMs ≠ 0) (osError submitHr : HResult) :
    ∃ s2 s3,
      scheduleAsync s delayInMs true osError submitHr = (S_OK, sysTimerArmed s) ∧
      (sysTimerArmed s).refs = s.refs + 1 ∧
      (sysTimerArmed s).st.timerScheduled = true ∧
      cancelAsync (sysTimerArmed s) = some s2 ∧
      cancelAsync s = some s3 ∧
      AsyncOp.DoWork ∉ s2.ops ∧
      s2.refs = s3.refs ∧ s2.ops = s3.ops ∧ s2.status = E_ABORT := by
  have h1 : scheduleAsync s delayInMs true osError submitHr
      = (S_OK, sysTimerArmed s) := by
    simp [scheduleAsync, sysTimerArmed, hs, hws, hnt, hd]
  cases hb : s.blockCallback
  case false =>
    have h2 : ∃ s2, cancelAsync (sysTimerArmed s) = some s2 ∧
        s2.refs = s.refs - s.workQueued - 1 ∧
        s2.ops = [AsyncOp.Cancel, AsyncOp.Cleanup] ∧ s2.status = E_ABORT := by
      simp [cancelAsync, sysTimerArmed, trySetTerminalStatus, signalCompletion,
        cleanupState, hp, hs, hstatus, hops, hb]
    have h3 : ∃ s3, cancelAsync s = some s3 ∧
        s3.refs = s.refs - s.workQueued - 1 ∧
        s3.ops = [AsyncOp.Cancel, AsyncOp.Cleanup] := by
      simp [cancelAsync, trySetTerminalStatus, signalCompletion, cleanupState,
        hp, hs, hstatus, hts, hnt, hops, hb]
    obtain ⟨s2, hc2, hr2, ho2, hst2⟩ := h2
    obtain ⟨s3, hc3, hr3, ho3⟩ := h3
    refine ⟨s2, s3, h1, rfl, rfl, hc2, hc3, ?_, hr2.trans hr3.symm,
      ho2.trans ho3.symm, hst2⟩
    rw [ho2]
    decide
  case true =>
    have h2 : ∃ s2, cancelAsync (sysTimerArmed s) = some s2 ∧
        s2.refs = s.refs + 1 - s.workQueued - 1 ∧
        s2.ops = [AsyncOp.Cancel, AsyncOp.Cleanup] ∧ s2.status = E_ABORT := by
      simp [cancelAsync, sysTimerArmed, trySetTerminalStatus, signalCompletion,
        cleanupState, hp, hs, hstatus, hops, hb]
    have h3 : ∃ s3, cancelAsync s = some s3 ∧
        s3.refs = s.refs + 1 - s.workQueued - 1 ∧
        s3.ops = [AsyncOp.Cancel, AsyncOp.Cleanup] := by
      simp [cancelAsync, trySetTerminalStatus, signalCompletion, cleanupState,
        hp, hs, hstatus, hts, hnt, hops, hb]
    obtain ⟨s2, hc2, hr2, ho2, hst2⟩ := h2
    obtain ⟨s3, hc3, hr3, ho3⟩ := h3
    refine ⟨s2, s3, h1, rfl, rfl, hc2, hc3, ?_, hr2.trans hr3.symm,
      ho2.trans ho3.symm, hst2⟩
    rw [ho2]
    decide

theorem C7_cancel_before_timer_fire_witness :
    ∃ s2 s3,
      scheduleAsync sysAfterBegin 500 true S_OK S_OK
        = (S_OK, sysTimerArmed sysAfterBegin) ∧
      (sysTimerArmed sysAfterBegin).refs = sysAfterBegin.refs + 1 ∧
      (sysTimerArmed sysAfterBegin).st.timerScheduled = true ∧
      cancelAsync (sysTimerArmed sysAfterBegin) = some s2 ∧
      cancelAsync sysAfterBegin = some s3 ∧
      AsyncOp.DoWork ∉ s2.ops ∧
      s2.refs = s3.refs ∧ s2.ops = s3.ops ∧ s2.status = E_ABORT :=
  C7_cancel_before_timer_fire sysAfterBegin provSample rfl rfl rfl rfl rfl rfl
    rfl 500 (by decide) S_OK S_OK

/-- A concrete zero-initialized block with queue, callback and wait event,
used by witnesses. -/
def blkSample : AsyncBlockOuter :=
  { queuePresent := true
    callbackPresent := true
    waitEventPresent := true
    internalBytes := [0, 0, 0, 0, 0, 0, 0, 0] }

/-- An environment whose `new AsyncState` fails. -/
def envAllocFail : AllocEnv :=
  { stateAllocOk := false, dupHandleHr := S_OK, createEventHr := S_OK,
    createQueueHr := S_OK }

/-- An environment in which every allocation succeeds. -/
def envAllocOk : AllocEnv :=
  { stateAllocOk := true, dupHandleHr := S_OK, createEventHr := S_OK,
    createQueueHr := S_OK }

/-- C5 (the code at the failing input): `Begin` on a zeroed block with a
queue, a callback and a wait event, where `new AsyncState` fails and the
synthetic-completion submit succeeds.  `AllocState` does record the failing
status (`E_OUTOFMEMORY`) in the block and submit the completion — the
fragment the claim describes — but it then returns the submit's `S_OK`
(AsyncLib.cpp:320-324 overwrite `hr`), so `BeginAsync` continues past
`RETURN_IF_FAILED` and dereferences the null `internal->state` at
`state->provider = provider` (AsyncLib.cpp:693): the client gets a crash, not
the uniform terminal lifecycle.  The final conjuncts show no input rescues
the claim: without a user callback the synthetic completion is never
submitted and the raw failure is returned (only the wait event is set
directly). -/
theorem C5_begin_alloc_failure_crashes :
    (allocState blkSample envAllocFail S_OK).internalStatus
      = some E_OUTOFMEMORY ∧
    (allocState blkSample envAllocFail S_OK).completionSubmitted = true ∧
    (allocState blkSample envAllocFail S_OK).result = S_OK ∧
    (beginAsync blkSample envAllocFail S_OK 5 9 (some "Api")
        provSample).crashed = true ∧
    (beginAsync blkSample envAllocFail S_OK 5 9 (some "Api")
        provSample).sys = none ∧
    (allocState { blkSample with callbackPresent := false } envAllocFail
        S_OK).completionSubmitted = false ∧
    (allocState { blkSample with callbackPresent := false } envAllocFail
        S_OK).result = E_OUTOFMEMORY ∧
    (allocState { blkSample with callbackPresent := false } envAllocFail
        S_OK).eventSetDirectly = true :=
  ⟨rfl, rfl, rfl, rfl, rfl, rfl, rfl, rfl⟩

/-- C6: `BeginAsync` on a block whose internal storage has any nonzero byte
fails with `E_INVALIDARG`, allocates no state and leaves the storage
untouched; on an all-zero block (with the allocations succeeding) it succeeds
and produces a `Pending` block with a non-null state holding the given
provider, context, token and function. -/
theorem C6_begin_zero_gate (blk : AsyncBlockOuter) (env : AllocEnv)
    (submitHr : HResult) (context token : Nat) (function : Option String)
    (provider : Provider) :
    (blk.internalBytes.any (fun b => b != 0) = true →
      (beginAsync blk env submitHr context token function provider).result
          = E_INVALIDARG ∧
      (beginAsync blk env submitHr context token function provider).alloc.stateCreated
          = false ∧
      (beginAsync blk env submitHr context token function provider).alloc.internalStatus
          = none ∧
      (beginAsync blk env submitHr context token function provider).sys = none) ∧
    (blk.internalBytes.any (fun b => b != 0) = false →
      allocStateNoCompletion blk env = (S_OK, some allocatedAsyncState) →
      ∃ s, (beginAsync blk env submitHr context token function provider).result
          = S_OK ∧
        (beginAsync blk env submitHr context token function provider).sys
          = some s ∧
        s.status = E_PENDING ∧ s.hasState = true ∧
        s.st.provider = some provider ∧ s.st.providerData.context = context ∧
        s.st.token = token ∧ s.st.function = function) := by
  constructor
  · intro hnz
    simp [beginAsync, allocState, hnz, FAILED, SUCCEEDED, E_INVALIDARG]
  · intro hz halloc
    simp [beginAsync, allocState, hz, halloc, FAILED, SUCCEEDED, S_OK,
      allocatedAsyncState]

theorem C6_begin_zero_gate_witness :
    ((beginAsync { blkSample with internalBytes := [0, 7, 0] } envAllocOk S_OK
        5 9 (some "Api") provSample).result = E_INVALIDARG ∧
      (beginAsync { blkSample with internalBytes := [0, 7, 0] } envAllocOk S_OK
        5 9 (some "Api") provSample).alloc.stateCreated = false) ∧
    ∃ s, (beginAsync blkSample envAllocOk S_OK 5 9 (some "Api")
        provSample).sys = some s ∧
      s.status = E_PENDING ∧ s.st.token = 9 := by
  have ha := (C6_begin_zero_gate { blkSample with internalBytes := [0, 7, 0] }
    envAllocOk S_OK 5 9 (some "Api") provSample).1 (by decide)
  have hb := (C6_begin_zero_gate blkSample envAllocOk S_OK 5 9 (some "Api")
    provSample).2 (by decide) rfl
  obtain ⟨s, h1, h2, h3, h4, h5, h6, h7, h8⟩ := hb
  exact ⟨⟨ha.1, ha.2.1⟩, s, h2, h3, h7⟩
